import Mathlib

/-!
Verification of the Timelytics delivery-time estimator
(`src/timelytics_app.py`) against its natural-language specification.

The Python core is embedded shallowly:
* dictionaries become association lists over `String` keys with `List.lookup`;
  `dict.get(k, d)` becomes `(xs.lookup k).getD d`, and a bare `dict[k]`
  (which raises `KeyError` on a miss) makes the embedding `Option`-valued;
* floats become rationals (`ℚ`); Python's `round(x, 1)` (banker's rounding)
  becomes `round1` built on an explicit round-half-to-even on ℚ;
* the per-call draw `np.random.uniform(0.9, 1.1)` becomes an explicit
  `variation : ℚ` argument (a jitter value), and the sample synthesizer takes
  a whole jitter stream `js : ℕ → ℚ`, one entry per estimator invocation;
* `datetime.now()` (ambient wall-clock state) becomes an explicit `now`
  argument counting seconds since the epoch 1970-01-01 00:00:00 (a Thursday),
  and `strftime "%A, %B %d, %Y at %I:%M %p"` is modelled by `strftime_long`
  via the standard civil-from-days calendar algorithm.
-/

namespace Timelytics

/-- `category_times` dict of `create_prediction_model`: base hours per category. -/
def category_times : List (String × ℚ) :=
  [("Electronics", 48), ("Clothing", 36), ("Books", 24), ("Home & Garden", 72),
   ("Sports", 48), ("Beauty", 36), ("Toys", 48)]

/-- `location_multipliers` dict of `create_prediction_model`. -/
def location_multipliers : List (String × ℚ) :=
  [("Urban", 8/10), ("Suburban", 1), ("Rural", 13/10)]

/-- `shipping_multipliers` dict of `create_prediction_model`. -/
def shipping_multipliers : List (String × ℚ) :=
  [("Overnight", 3/10), ("Express", 6/10), ("Standard", 1), ("Economy", 14/10)]

/-- `create_prediction_model()`: returns the three rate tables. -/
def create_prediction_model :
    List (String × ℚ) × List (String × ℚ) × List (String × ℚ) :=
  (category_times, location_multipliers, shipping_multipliers)

/-- Round-half-to-even on ℚ (the tie rule of Python 3's `round`). -/
def roundHalfEven (q : ℚ) : ℤ :=
  if q - ⌊q⌋ < 1/2 then ⌊q⌋
  else if 1/2 < q - ⌊q⌋ then ⌊q⌋ + 1
  else if ⌊q⌋ % 2 = 0 then ⌊q⌋ else ⌊q⌋ + 1

/-- Python's `round(x, 1)`: round to one decimal place. -/
def round1 (q : ℚ) : ℚ :=
  (roundHalfEven (q * 10) : ℚ) / 10

/-- `predict_delivery_time(category, location, shipping)`.
The per-call uniform draw is the explicit argument `variation`; a `KeyError`
on the location or shipping lookup is `none`. -/
def predict_delivery_time (category location shipping : String)
    (variation : ℚ) : Option ℚ :=
  let (ct, lm, sm) := create_prediction_model
  let base_time := (ct.lookup category).getD 48
  match lm.lookup location with
  | none => none
  | some locMult =>
    match sm.lookup shipping with
    | none => none
    | some shipMult =>
      let predicted_time := base_time * locMult * shipMult
      let predicted_time := predicted_time * variation
      some (max 2 (round1 predicted_time))

/-- The `categories` list of `generate_sample_data` (also the selectbox options). -/
def categories : List String :=
  ["Electronics", "Clothing", "Books", "Home & Garden", "Sports", "Beauty", "Toys"]

/-- The `locations` list of `generate_sample_data`. -/
def locations : List String := ["Urban", "Suburban", "Rural"]

/-- The `shipping_methods` list of `generate_sample_data`. -/
def shipping_methods : List String := ["Standard", "Express", "Overnight", "Economy"]

/-- One row of the synthesized reporting table. -/
structure SampleRow where
  product_category : String
  loc : String
  shipping_method : String
  delivery_time : ℚ
deriving Repr, DecidableEq

/-- The cross-product traversed by the nested `for` loops of
`generate_sample_data`: category outermost, location middle, shipping innermost. -/
def sample_combos : List (String × String × String) :=
  categories.flatMap (fun category =>
    locations.flatMap (fun location =>
      shipping_methods.map (fun shipping => (category, location, shipping))))

/-- The loop body of `generate_sample_data`: one `predict_delivery_time` call per
combination, consuming the jitter stream `js` in order (`i` is the index of the
next draw). A failed prediction aborts, mirroring an uncaught exception. -/
def genRows : List (String × String × String) → ℕ → (ℕ → ℚ) → Option (List SampleRow)
  | [], _, _ => some []
  | (category, location, shipping) :: rest, i, js =>
    match predict_delivery_time category location shipping (js i) with
    | none => none
    | some t =>
      match genRows rest (i + 1) js with
      | none => none
      | some rows => some (⟨category, location, shipping, t⟩ :: rows)

/-- `generate_sample_data()`, with the per-call random draws made explicit as the
stream `js`. -/
def generate_sample_data (js : ℕ → ℚ) : Option (List SampleRow) :=
  genRows sample_combos 0 js

/-- Python `int()` on a float: truncation toward zero. -/
def pyInt (q : ℚ) : ℤ := if 0 ≤ q then ⌊q⌋ else ⌈q⌉

/-- Python `//` on floats: floor division (the result is again a float). -/
def pyFloorDiv (a b : ℚ) : ℚ := ⌊a / b⌋

/-- Python `%` on floats: `a - b * (a // b)`. -/
def pyMod (a b : ℚ) : ℚ := a - b * ⌊a / b⌋

/-- `hours_to_readable(hours)`. -/
def hours_to_readable (hours : ℚ) : String :=
  if hours < 24 then
    toString (pyInt hours) ++ " hours"
  else
    let days := pyInt (pyFloorDiv hours 24)
    let remaining_hours := pyInt (pyMod hours 24)
    if remaining_hours = 0 then
      toString days ++ " day" ++ (if 1 < days then "s" else "")
    else
      toString days ++ " day" ++ (if 1 < days then "s" else "") ++ " and " ++
        toString remaining_hours ++ " hour" ++ (if 1 < remaining_hours then "s" else "")

/-- Full weekday names as produced by `strftime("%A")` in the C locale,
indexed Sunday-first. -/
def weekdayNames : List String :=
  ["Sunday", "Monday", "Tuesday", "Wednesday", "Thursday", "Friday", "Saturday"]

/-- Full month names as produced by `strftime("%B")` in the C locale. -/
def monthNames : List String :=
  ["January", "February", "March", "April", "May", "June", "July", "August",
   "September", "October", "November", "December"]

/-- Zero-padded two-digit rendering (`%d`, `%I`, `%M`). -/
def pad2 (n : ℤ) : String := if n < 10 then "0" ++ toString n else toString n

/-- Proleptic Gregorian civil date `(year, month, day)` from a count of days
since 1970-01-01 (the civil-from-days algorithm used by `datetime`). -/
def civilFromDays (z0 : ℤ) : ℤ × ℤ × ℤ :=
  let z := z0 + 719468
  let era := (if 0 ≤ z then z else z - 146096) / 146097
  let doe := z - era * 146097
  let yoe := (doe - doe / 1460 + doe / 36524 - doe / 146096) / 365
  let y := yoe + era * 400
  let doy := doe - (365 * yoe + yoe / 4 - yoe / 100)
  let mp := (5 * doy + 2) / 153
  let d := doy - (153 * mp + 2) / 5 + 1
  let m := mp + (if mp < 10 then 3 else -9)
  (y + (if m ≤ 2 then 1 else 0), m, d)

/-- `strftime("%A, %B %d, %Y at %I:%M %p")` on an instant `t` given in seconds
since 1970-01-01 00:00:00 (a Thursday, hence the `+ 4` weekday offset). -/
def strftime_long (t : ℤ) : String :=
  let days := t / 86400
  let secs := t % 86400
  let ymd := civilFromDays days
  let weekday := weekdayNames.getD ((days + 4) % 7).toNat "Sunday"
  let month := monthNames.getD (ymd.2.1 - 1).toNat "January"
  let h24 := secs / 3600
  let minute := secs % 3600 / 60
  let h12 := if h24 % 12 = 0 then 12 else h24 % 12
  let ampm := if h24 < 12 then "AM" else "PM"
  let datePart := pad2 ymd.2.2 ++ ", " ++ toString ymd.1 ++ " at " ++
    pad2 h12 ++ ":" ++ pad2 minute
  weekday ++ ", " ++ month ++ " " ++ datePart ++ " " ++ ampm

/-- `get_delivery_date(hours)`: `datetime.now() + timedelta(hours=hours)`
rendered with `strftime("%A, %B %d, %Y at %I:%M %p")`. The ambient wall-clock
reading `datetime.now()` is passed explicitly as `now` (seconds since epoch);
`strftime` displays whole minutes, so the instant is floored to whole seconds. -/
def get_delivery_date (hours : ℚ) (now : ℤ) : String :=
  strftime_long (now + ⌊hours * 3600⌋)

/-- `get_delivery_insights(category, location, shipping, predicted_hours)`:
four independent rule groups appended in order. -/
def get_delivery_insights (category location shipping : String)
    (predicted_hours : ℚ) : List String :=
  let insights : List String := []
  let insights := insights ++
    (if shipping = "Overnight" then
      ["🚀 Overnight shipping selected - fastest delivery option!"]
    else if shipping = "Economy" then
      ["💰 Economy shipping selected - budget-friendly option with longer delivery time"]
    else [])
  let insights := insights ++
    (if location = "Rural" then
      ["🏞️ Rural delivery may take longer due to remote location"]
    else if location = "Urban" then
      ["🏙️ Urban delivery benefits from faster logistics networks"]
    else [])
  let insights := insights ++
    (if category = "Home & Garden" then
      ["🏡 Large items may require special handling and longer processing time"]
    else if category = "Books" then
      ["📚 Books are typically lightweight and process quickly"]
    else [])
  let insights := insights ++
    (if 72 < predicted_hours then
      ["⏳ Extended delivery time - consider express shipping for faster delivery"]
    else if predicted_hours < 24 then
      ["⚡ Fast delivery expected - your order will arrive quickly!"]
    else [])
  insights

/-! ### Spec-side definitions

The following definitions are written from the specification's words, to be
compared with the source-side definitions above (refinement claims C1, C5, C6).
-/

/-- Spec §3: base hours for the seven categories
(48, 36, 24, 72, 48, 36, 48 respectively). -/
def specBase (category : String) : ℚ :=
  if category = "Electronics" then 48
  else if category = "Clothing" then 36
  else if category = "Books" then 24
  else if category = "Home & Garden" then 72
  else if category = "Sports" then 48
  else if category = "Beauty" then 36
  else if category = "Toys" then 48
  else 0

/-- Spec §3: location factors 0.8 / 1.0 / 1.3 for Urban / Suburban / Rural. -/
def specLocationFactor (location : String) : ℚ :=
  if location = "Urban" then 8/10
  else if location = "Suburban" then 1
  else if location = "Rural" then 13/10
  else 0

/-- Spec §3: shipping factors 0.3 / 0.6 / 1.0 / 1.4 for
Overnight / Express / Standard / Economy. -/
def specShippingFactor (shipping : String) : ℚ :=
  if shipping = "Overnight" then 3/10
  else if shipping = "Express" then 6/10
  else if shipping = "Standard" then 1
  else if shipping = "Economy" then 14/10
  else 0

/-- The spec's `toReadableDuration` (§4.3), written from the spec's words:
below 24 render truncated whole hours; otherwise `days = floor(hours/24)`,
`remainderHours = floor(hours mod 24)`, rendering days alone when the remainder
is 0, pluralizing each noun exactly when its count exceeds 1. -/
def toReadableDuration_spec (hours : ℚ) : String :=
  if hours < 24 then
    toString ⌊hours⌋ ++ " hours"
  else
    let days : ℤ := ⌊hours / 24⌋
    let rem : ℤ := ⌊hours - 24 * ⌊hours / 24⌋⌋
    if rem = 0 then
      toString days ++ " day" ++ (if 1 < days then "s" else "")
    else
      toString days ++ " day" ++ (if 1 < days then "s" else "") ++ " and " ++
        toString rem ++ " hour" ++ (if 1 < rem then "s" else "")

/-- Spec §4.4 shipping rule group: at most one note. -/
def shippingNote_spec (shipping : String) : Option String :=
  if shipping = "Overnight" then
    some "🚀 Overnight shipping selected - fastest delivery option!"
  else if shipping = "Economy" then
    some "💰 Economy shipping selected - budget-friendly option with longer delivery time"
  else none

/-- Spec §4.4 location rule group: at most one note. -/
def locationNote_spec (location : String) : Option String :=
  if location = "Rural" then
    some "🏞️ Rural delivery may take longer due to remote location"
  else if location = "Urban" then
    some "🏙️ Urban delivery benefits from faster logistics networks"
  else none

/-- Spec §4.4 category rule group: at most one note. -/
def categoryNote_spec (category : String) : Option String :=
  if category = "Home & Garden" then
    some "🏡 Large items may require special handling and longer processing time"
  else if category = "Books" then
    some "📚 Books are typically lightweight and process quickly"
  else none

/-- Spec §4.4 duration rule group: fires only above 72 or below 24 hours,
silent on the inclusive range 24–72. -/
def durationNote_spec (predicted_hours : ℚ) : Option String :=
  if 72 < predicted_hours then
    some "⏳ Extended delivery time - consider express shipping for faster delivery"
  else if predicted_hours < 24 then
    some "⚡ Fast delivery expected - your order will arrive quickly!"
  else none

/-- The spec's `insights` (§4.4): the four rule groups, each contributing at
most one string, concatenated in the fixed order shipping, location, category,
duration. -/
def insights_spec (category location shipping : String)
    (predicted_hours : ℚ) : List String :=
  (shippingNote_spec shipping).toList ++ (locationNote_spec location).toList ++
    (categoryNote_spec category).toList ++ (durationNote_spec predicted_hours).toList

/-! ### Rate-table lookup lemmas -/

theorem lookup_category_mem (category : String) (hc : category ∈ categories) :
    (category_times.lookup category).getD 48 = specBase category := by
  simp only [categories, List.mem_cons, List.not_mem_nil, or_false] at hc
  rcases hc with rfl | rfl | rfl | rfl | rfl | rfl | rfl <;> rfl

theorem lookup_category_none (category : String) (hc : category ∉ categories) :
    category_times.lookup category = none := by
  simp only [categories, List.mem_cons, List.not_mem_nil, or_false, not_or] at hc
  obtain ⟨h1, h2, h3, h4, h5, h6, h7⟩ := hc
  simp [category_times, List.lookup, beq_eq_false_iff_ne.mpr h1,
    beq_eq_false_iff_ne.mpr h2, beq_eq_false_iff_ne.mpr h3, beq_eq_false_iff_ne.mpr h4,
    beq_eq_false_iff_ne.mpr h5, beq_eq_false_iff_ne.mpr h6, beq_eq_false_iff_ne.mpr h7]

theorem lookup_location_eq (location : String) (hl : location ∈ locations) :
    location_multipliers.lookup location = some (specLocationFactor location) := by
  simp only [locations, List.mem_cons, List.not_mem_nil, or_false] at hl
  rcases hl with rfl | rfl | rfl <;> rfl

theorem lookup_location_none (location : String) (hl : location ∉ locations) :
    location_multipliers.lookup location = none := by
  simp only [locations, List.mem_cons, List.not_mem_nil, or_false, not_or] at hl
  obtain ⟨h1, h2, h3⟩ := hl
  simp [location_multipliers, List.lookup, beq_eq_false_iff_ne.mpr h1,
    beq_eq_false_iff_ne.mpr h2, beq_eq_false_iff_ne.mpr h3]

theorem lookup_shipping_eq (shipping : String) (hs : shipping ∈ shipping_methods) :
    shipping_multipliers.lookup shipping = some (specShippingFactor shipping) := by
  simp only [shipping_methods, List.mem_cons, List.not_mem_nil, or_false] at hs
  rcases hs with rfl | rfl | rfl | rfl <;> rfl

theorem lookup_shipping_none (shipping : String) (hs : shipping ∉ shipping_methods) :
    shipping_multipliers.lookup shipping = none := by
  simp only [shipping_methods, List.mem_cons, List.not_mem_nil, or_false, not_or] at hs
  obtain ⟨h1, h2, h3, h4⟩ := hs
  simp [shipping_multipliers, List.lookup, beq_eq_false_iff_ne.mpr h1,
    beq_eq_false_iff_ne.mpr h2, beq_eq_false_iff_ne.mpr h3, beq_eq_false_iff_ne.mpr h4]

/-- On valid location and shipping keys, `predict_delivery_time` reduces to the
floored, rounded, jittered product of the three table entries. -/
theorem predict_valid_eq (category location shipping : String) (j : ℚ)
    (hl : location ∈ locations) (hs : shipping ∈ shipping_methods) :
    predict_delivery_time category location shipping j =
      some (max 2 (round1 ((category_times.lookup category).getD 48 *
        specLocationFactor location * specShippingFactor shipping * j))) := by
  simp only [predict_delivery_time, create_prediction_model,
    lookup_location_eq location hl, lookup_shipping_eq shipping hs]

/-! ### Rounding and bound lemmas -/

theorem roundHalfEven_ge_floor (q : ℚ) : ⌊q⌋ ≤ roundHalfEven q := by
  unfold roundHalfEven
  split_ifs <;> omega

theorem roundHalfEven_ge (q : ℚ) (n : ℤ) (h : (n : ℚ) + 1/2 < q) :
    n + 1 ≤ roundHalfEven q := by
  rcases le_or_lt (n + 1) ⌊q⌋ with hf | hf
  · exact hf.trans (roundHalfEven_ge_floor q)
  · have h1 : n ≤ ⌊q⌋ := Int.le_floor.mpr (by linarith)
    have h2 : ⌊q⌋ = n := by omega
    have h3 : (⌊q⌋ : ℚ) = (n : ℚ) := by exact_mod_cast h2
    unfold roundHalfEven
    split_ifs with c1 c2 c3
    · exfalso; rw [h3] at c1; linarith
    · omega
    · exfalso; rw [h3] at c1 c2; linarith
    · exfalso; rw [h3] at c1 c2; linarith

theorem round1_ge_26_5 (q : ℚ) (h : 648/125 ≤ q) : 26/5 ≤ round1 q := by
  have h51 : (51 : ℚ) + 1/2 < q * 10 := by linarith
  have h52 := roundHalfEven_ge (q * 10) 51 h51
  have h52q : (52 : ℚ) ≤ (roundHalfEven (q * 10) : ℚ) := by exact_mod_cast h52
  unfold round1
  linarith

theorem specBase_bounds (category : String) :
    24 ≤ (category_times.lookup category).getD 48 ∧
      (category_times.lookup category).getD 48 ≤ 72 := by
  by_cases hc : category ∈ categories
  · rw [lookup_category_mem category hc]
    simp only [categories, List.mem_cons, List.not_mem_nil, or_false] at hc
    rcases hc with rfl | rfl | rfl | rfl | rfl | rfl | rfl <;>
      constructor <;> (simp only [specBase, String.reduceEq, if_false, if_true]; norm_num)
  · rw [lookup_category_none category hc]
    norm_num

theorem specLocationFactor_lb (location : String) (hl : location ∈ locations) :
    8/10 ≤ specLocationFactor location := by
  simp only [locations, List.mem_cons, List.not_mem_nil, or_false] at hl
  rcases hl with rfl | rfl | rfl <;>
    (simp only [specLocationFactor, String.reduceEq, if_false, if_true]; norm_num)

theorem specShippingFactor_lb (shipping : String) (hs : shipping ∈ shipping_methods) :
    3/10 ≤ specShippingFactor shipping := by
  simp only [shipping_methods, List.mem_cons, List.not_mem_nil, or_false] at hs
  rcases hs with rfl | rfl | rfl | rfl <;>
    (simp only [specShippingFactor, String.reduceEq, if_false, if_true]; norm_num)

theorem raw_lower (b lm sm j : ℚ) (hb : 24 ≤ b) (hlm : 8/10 ≤ lm)
    (hsm : 3/10 ≤ sm) (hj : 9/10 ≤ j) : 648/125 ≤ b * lm * sm * j := by
  have h1 : 96/5 ≤ b * lm := by nlinarith
  have h2 : 144/25 ≤ b * lm * sm := by nlinarith
  nlinarith

/-! ### Claims about the estimator -/

/-- C1: for every valid category, location, shipping and every jitter value in
[0.9, 1.1], `predict_delivery_time` returns exactly
`max(2, round(base * locationFactor * shippingFactor * jitter, 1))` with the
base and factor tables as listed in the spec. -/
theorem predict_matches_spec_formula (category location shipping : String) (j : ℚ)
    (hc : category ∈ categories) (hl : location ∈ locations)
    (hs : shipping ∈ shipping_methods) (hj0 : 9/10 ≤ j) (hj1 : j ≤ 11/10) :
    predict_delivery_time category location shipping j =
      some (max 2 (round1 (specBase category * specLocationFactor location *
        specShippingFactor shipping * j))) := by
  rw [predict_valid_eq category location shipping j hl hs,
    lookup_category_mem category hc]

theorem predict_matches_spec_formula_witness :
    predict_delivery_time "Electronics" "Urban" "Overnight" 1 =
      some (max 2 (round1 (specBase "Electronics" * specLocationFactor "Urban" *
        specShippingFactor "Overnight" * 1))) :=
  predict_matches_spec_formula "Electronics" "Urban" "Overnight" 1
    (by decide) (by decide) (by decide) (by norm_num) (by norm_num)

/-- C2: for every category, any valid location and shipping, and every jitter
value, the returned prediction is at least 2 hours. -/
theorem predict_ge_two (category location shipping : String) (j : ℚ)
    (hl : location ∈ locations) (hs : shipping ∈ shipping_methods) :
    ∃ r, predict_delivery_time category location shipping j = some r ∧ 2 ≤ r :=
  ⟨_, predict_valid_eq category location shipping j hl hs, le_max_left 2 _⟩

theorem predict_ge_two_witness :
    ∃ r, predict_delivery_time "Books" "Rural" "Economy" 1 = some r ∧ 2 ≤ r :=
  predict_ge_two "Books" "Rural" "Economy" 1 (by decide) (by decide)

/-- C3: for every category string and jitter, `predict_delivery_time` fails
(`none`, the `KeyError`) whenever the location or the shipping method is
outside its valid enumeration. -/
theorem predict_fails_on_unknown_key (category location shipping : String) (j : ℚ)
    (h : location ∉ locations ∨ shipping ∉ shipping_methods) :
    predict_delivery_time category location shipping j = none := by
  rcases h with h | h
  · simp [predict_delivery_time, create_prediction_model,
      lookup_location_none location h]
  · rcases hlm : location_multipliers.lookup location with _ | v
    · simp [predict_delivery_time, create_prediction_model, hlm]
    · simp [predict_delivery_time, create_prediction_model, hlm,
        lookup_shipping_none shipping h]

theorem predict_fails_on_unknown_key_witness :
    predict_delivery_time "Books" "Moon" "Standard" 1 = none ∧
      predict_delivery_time "Books" "Urban" "Teleport" 1 = none :=
  ⟨predict_fails_on_unknown_key "Books" "Moon" "Standard" 1 (Or.inl (by decide)),
   predict_fails_on_unknown_key "Books" "Urban" "Teleport" 1 (Or.inr (by decide))⟩

/-- C4: a category outside the seven-element enumeration does not fail: the
default base of 48 hours is silently substituted, so under the same jitter the
result coincides with that of the base-48 category "Electronics". -/
theorem predict_unknown_category_defaults (category location shipping : String)
    (j : ℚ) (hc : category ∉ categories) (hl : location ∈ locations)
    (hs : shipping ∈ shipping_methods) :
    (predict_delivery_time category location shipping j).isSome = true ∧
    predict_delivery_time category location shipping j =
      predict_delivery_time "Electronics" location shipping j := by
  have e1 := predict_valid_eq category location shipping j hl hs
  have e2 := predict_valid_eq "Electronics" location shipping j hl hs
  have hbase : (category_times.lookup category).getD 48 = 48 := by
    rw [lookup_category_none category hc]; rfl
  refine ⟨by rw [e1]; rfl, ?_⟩
  rw [e1, e2, hbase]
  rfl

theorem predict_unknown_category_defaults_witness :
    (predict_delivery_time "Furniture" "Urban" "Standard" 1).isSome = true ∧
    predict_delivery_time "Furniture" "Urban" "Standard" 1 =
      predict_delivery_time "Electronics" "Urban" "Standard" 1 :=
  predict_unknown_category_defaults "Furniture" "Urban" "Standard" 1
    (by decide) (by decide) (by decide)

/-- C9: for every category string, valid location and shipping, and jitter in
[0.9, 1.1], the pre-floor product is at least 5.184 (= 648/125), so the
max-with-2 clamp never determines the result: the prediction equals the
rounded product and is at least 5.2 (= 26/5). -/
theorem predict_clamp_never_binds (category location shipping : String) (j : ℚ)
    (hl : location ∈ locations) (hs : shipping ∈ shipping_methods)
    (hj0 : 9/10 ≤ j) (hj1 : j ≤ 11/10) :
    ∃ r, predict_delivery_time category location shipping j = some r ∧
      648/125 ≤ (category_times.lookup category).getD 48 *
        specLocationFactor location * specShippingFactor shipping * j ∧
      r = round1 ((category_times.lookup category).getD 48 *
        specLocationFactor location * specShippingFactor shipping * j) ∧
      26/5 ≤ r := by
  have hraw := raw_lower ((category_times.lookup category).getD 48)
    (specLocationFactor location) (specShippingFactor shipping) j
    (specBase_bounds category).1 (specLocationFactor_lb location hl)
    (specShippingFactor_lb shipping hs) hj0
  have hr := round1_ge_26_5 _ hraw
  refine ⟨_, predict_valid_eq category location shipping j hl hs, hraw, ?_, ?_⟩
  · exact max_eq_right (by linarith)
  · rw [max_eq_right (by linarith : (2:ℚ) ≤ round1 _)]
    exact hr

theorem predict_clamp_never_binds_witness :
    ∃ r, predict_delivery_time "Electronics" "Urban" "Overnight" (9/10) = some r ∧
      648/125 ≤ (category_times.lookup "Electronics").getD 48 *
        specLocationFactor "Urban" * specShippingFactor "Overnight" * (9/10) ∧
      r = round1 ((category_times.lookup "Electronics").getD 48 *
        specLocationFactor "Urban" * specShippingFactor "Overnight" * (9/10)) ∧
      26/5 ≤ r :=
  predict_clamp_never_binds "Electronics" "Urban" "Overnight" (9/10)
    (by decide) (by decide) (by norm_num) (by norm_num)

/-! ### Formatter lemmas and claims -/

theorem pyInt_intCast (n : ℤ) : pyInt ((n : ℚ)) = n := by
  unfold pyInt
  split_ifs
  · exact Int.floor_intCast n
  · exact Int.ceil_intCast n

theorem pyInt_of_nonneg (q : ℚ) (h : 0 ≤ q) : pyInt q = ⌊q⌋ := if_pos h

theorem pyMod_nonneg (a : ℚ) : 0 ≤ pyMod a 24 := by
  unfold pyMod
  have h1 : ((⌊a / 24⌋ : ℚ)) ≤ a / 24 := Int.floor_le _
  have h3 : 24 * (a / 24) = a := by ring
  nlinarith

theorem hours_to_readable_eq_spec (hours : ℚ) (h0 : 0 ≤ hours) :
    hours_to_readable hours = toReadableDuration_spec hours := by
  unfold hours_to_readable toReadableDuration_spec
  by_cases hlt : hours < 24
  · rw [if_pos hlt, if_pos hlt, pyInt_of_nonneg hours h0]
  · have hd : pyInt (pyFloorDiv hours 24) = ⌊hours / 24⌋ := by
      unfold pyFloorDiv; exact pyInt_intCast _
    have hr : pyInt (pyMod hours 24) = ⌊hours - 24 * ⌊hours / 24⌋⌋ := by
      rw [pyInt_of_nonneg _ (pyMod_nonneg hours)]; unfold pyMod; rfl
    rw [if_neg hlt, if_neg hlt]
    simp only [hd, hr]

/-- C5: for all non-negative hours, `hours_to_readable` implements the spec's
`toReadableDuration` — truncated whole hours below a day, otherwise
`floor(hours/24)` days and `floor(hours mod 24)` remainder hours, the remainder
suppressed when zero, each noun pluralized exactly when its count exceeds 1 —
and it satisfies the four spec examples. -/
theorem readable_duration_matches_spec :
    (∀ hours : ℚ, 0 ≤ hours →
      hours_to_readable hours = toReadableDuration_spec hours) ∧
    hours_to_readable 5 = "5 hours" ∧ hours_to_readable 24 = "1 day" ∧
    hours_to_readable 36 = "1 day and 12 hours" ∧
    hours_to_readable 48 = "2 days" := by
  refine ⟨hours_to_readable_eq_spec, ?_, ?_, ?_, ?_⟩
  · norm_num [hours_to_readable, pyInt]
    decide
  · norm_num [hours_to_readable, pyInt, pyFloorDiv, pyMod]
    decide
  · norm_num [hours_to_readable, pyInt, pyFloorDiv, pyMod]
    decide
  · norm_num [hours_to_readable, pyInt, pyFloorDiv, pyMod]
    decide

theorem readable_duration_matches_spec_witness :
    hours_to_readable 5 = toReadableDuration_spec 5 :=
  readable_duration_matches_spec.1 5 (by norm_num)

/-- C10: below 24 hours the sub-day branch always renders the plural word
"hours" regardless of the count — the singular/plural choice exists only in
the day branch — and in particular 1 hour renders as "1 hours". -/
theorem sub_day_branch_always_plural :
    (∀ hours : ℚ, 0 ≤ hours → hours < 24 →
      ∃ n : ℤ, hours_to_readable hours = toString n ++ " hours") ∧
    hours_to_readable 1 = "1 hours" := by
  constructor
  · intro hours h0 hlt
    refine ⟨pyInt hours, ?_⟩
    unfold hours_to_readable
    rw [if_pos hlt]
  · norm_num [hours_to_readable, pyInt]
    decide

theorem sub_day_branch_always_plural_witness :
    ∃ n : ℤ, hours_to_readable 1 = toString n ++ " hours" :=
  sub_day_branch_always_plural.1 1 (by norm_num) (by norm_num)

/-! ### Insight-engine claims -/

theorem get_delivery_insights_eq (category location shipping : String) (h : ℚ) :
    get_delivery_insights category location shipping h =
      insights_spec category location shipping h := by
  simp only [get_delivery_insights, insights_spec, shippingNote_spec,
    locationNote_spec, categoryNote_spec, durationNote_spec, List.nil_append]
  split_ifs <;> rfl

/-- C6: the insight engine is the deterministic concatenation of four rule
groups in the fixed order shipping, location, category, duration (the duration
rule firing only above 72 or below 24 hours), and it produces exactly the four
expected notes for ("Books", "Urban", "Overnight", 10) and the empty sequence
for ("Electronics", "Suburban", "Standard", 50). -/
theorem insights_rule_groups :
    (∀ (category location shipping : String) (predicted_hours : ℚ),
      get_delivery_insights category location shipping predicted_hours =
        insights_spec category location shipping predicted_hours) ∧
    get_delivery_insights "Books" "Urban" "Overnight" 10 =
      ["🚀 Overnight shipping selected - fastest delivery option!",
       "🏙️ Urban delivery benefits from faster logistics networks",
       "📚 Books are typically lightweight and process quickly",
       "⚡ Fast delivery expected - your order will arrive quickly!"] ∧
    get_delivery_insights "Electronics" "Suburban" "Standard" 50 = [] := by
  refine ⟨get_delivery_insights_eq, ?_, ?_⟩
  · simp only [get_delivery_insights, String.reduceEq, if_false, if_true,
      List.nil_append]
    norm_num
  · simp only [get_delivery_insights, String.reduceEq, if_false, if_true,
      List.nil_append]
    norm_num

/-! ### Sample-synthesizer claim -/

theorem genRows_spec (pending : List (String × String × String)) :
    ∀ (i : ℕ) (js : ℕ → ℚ),
    (∀ x ∈ pending, x.2.1 ∈ locations ∧ x.2.2 ∈ shipping_methods) →
    ∃ rows : List SampleRow,
      genRows pending i js = some rows ∧
      rows.map (fun r => (r.product_category, r.loc, r.shipping_method)) = pending ∧
      ∀ k, (hk : k < rows.length) →
        predict_delivery_time (rows.get ⟨k, hk⟩).product_category
          (rows.get ⟨k, hk⟩).loc (rows.get ⟨k, hk⟩).shipping_method (js (i + k)) =
          some ((rows.get ⟨k, hk⟩).delivery_time) := by
  induction pending with
  | nil =>
    intro i js hv
    exact ⟨[], rfl, rfl, fun k hk => absurd hk (by simp)⟩
  | cons head rest ih =>
    intro i js hv
    obtain ⟨c, l, s⟩ := head
    have hhead := hv (c, l, s) (List.mem_cons_self _ _)
    have hpred := predict_valid_eq c l s (js i) hhead.1 hhead.2
    obtain ⟨rows, hrows, hmap, hidx⟩ :=
      ih (i + 1) js (fun x hx => hv x (List.mem_cons_of_mem _ hx))
    refine ⟨⟨c, l, s, max 2 (round1 ((category_times.lookup c).getD 48 *
      specLocationFactor l * specShippingFactor s * js i))⟩ :: rows, ?_, ?_, ?_⟩
    · simp [genRows, hpred, hrows]
    · simp [hmap]
    · intro k hk
      match k with
      | 0 =>
        simpa using hpred
      | k + 1 =>
        have hk2 : k < rows.length := by simpa using hk
        have := hidx k hk2
        have harith : i + 1 + k = i + (k + 1) := by omega
        rw [harith] at this
        simpa using this

set_option maxRecDepth 10000 in
/-- C7: for every jitter stream, `generate_sample_data` succeeds and returns
exactly 84 rows, keyed by the full 7 x 3 x 4 cross-product in the fixed nested
order (category outermost, location middle, shipping innermost), every
combination present exactly once, the k-th row produced by the k-th estimator
invocation. -/
theorem synthesize_full_cross_product (js : ℕ → ℚ) :
    ∃ rows : List SampleRow,
      generate_sample_data js = some rows ∧
      rows.length = 84 ∧
      rows.map (fun r => (r.product_category, r.loc, r.shipping_method)) =
        sample_combos ∧
      sample_combos.Nodup ∧
      (∀ x ∈ sample_combos, sample_combos.count x = 1) ∧
      ∀ k, (hk : k < rows.length) →
        predict_delivery_time (rows.get ⟨k, hk⟩).product_category
          (rows.get ⟨k, hk⟩).loc (rows.get ⟨k, hk⟩).shipping_method (js k) =
          some ((rows.get ⟨k, hk⟩).delivery_time) := by
  obtain ⟨rows, hrows, hmap, hidx⟩ := genRows_spec sample_combos 0 js (by decide)
  have hnd : sample_combos.Nodup := by decide
  have hlen : rows.length = 84 := by
    have h1 := congrArg List.length hmap
    simp only [List.length_map] at h1
    rw [h1]
    decide
  refine ⟨rows, hrows, hlen, hmap, hnd, ?_, ?_⟩
  · decide
  · intro k hk
    have := hidx k hk
    simpa using this

/-! ### Delivery-date claim -/

theorem getD_mem (l : List String) (n : ℕ) (d : String) (hd : d ∈ l) :
    l.getD n d ∈ l := by
  by_cases h : n < l.length
  · rw [List.getD_eq_getElem l d h]
    exact List.getElem_mem h
  · rw [List.getD_eq_default l d (Nat.le_of_not_lt h)]
    exact hd

theorem strftime_long_shape (t : ℤ) :
    ∃ weekday month rest ampm,
      weekday ∈ weekdayNames ∧ month ∈ monthNames ∧
      (ampm = "AM" ∨ ampm = "PM") ∧
      strftime_long t =
        weekday ++ ", " ++ month ++ " " ++ rest ++ " " ++ ampm := by
  refine ⟨weekdayNames.getD ((t / 86400 + 4) % 7).toNat "Sunday",
    monthNames.getD ((civilFromDays (t / 86400)).2.1 - 1).toNat "January",
    pad2 (civilFromDays (t / 86400)).2.2 ++ ", " ++
      toString (civilFromDays (t / 86400)).1 ++ " at " ++
      pad2 (if t % 86400 / 3600 % 12 = 0 then 12 else t % 86400 / 3600 % 12) ++
      ":" ++ pad2 (t % 86400 % 3600 / 60),
    if t % 86400 / 3600 < 12 then "AM" else "PM",
    getD_mem _ _ _ (by decide), getD_mem _ _ _ (by decide), ?_, rfl⟩
  by_cases h : t % 86400 / 3600 < 12
  · exact Or.inl (if_pos h)
  · exact Or.inr (if_neg h)

/-- C8: `get_delivery_date` renders the instant `now + hours` (fractional hours
permitted) with the long date/time format: full weekday name, full month name,
day, year, and a 12-hour clock with AM/PM; with `now` an explicit input it is a
deterministic function of its arguments, e.g. 5 hours past the epoch renders as
"Thursday, January 01, 1970 at 05:00 AM". -/
theorem delivery_date_formatting :
    (∀ (hours : ℚ) (now : ℤ),
      get_delivery_date hours now = strftime_long (now + ⌊hours * 3600⌋)) ∧
    (∀ (hours : ℚ) (now : ℤ), ∃ weekday month rest ampm,
      weekday ∈ weekdayNames ∧ month ∈ monthNames ∧
      (ampm = "AM" ∨ ampm = "PM") ∧
      get_delivery_date hours now =
        weekday ++ ", " ++ month ++ " " ++ rest ++ " " ++ ampm) ∧
    get_delivery_date 5 0 = "Thursday, January 01, 1970 at 05:00 AM" := by
  refine ⟨fun hours now => rfl, fun hours now => strftime_long_shape _, ?_⟩
  have h1 : (0 : ℤ) + ⌊(5 : ℚ) * 3600⌋ = 18000 := by norm_num
  show strftime_long (0 + ⌊(5 : ℚ) * 3600⌋) = _
  rw [h1]
  decide

end Timelytics
